import Mathlib

/-!
Verification of the analytical core of a personal-finance tracker (the
`ai_features` module): keyword categorisation, month-over-month analysis,
next-month forecasting, category insights and the natural-language query
interpreter, modelled shallowly over lists of expense records.

Modelling conventions:
* Currency amounts are rationals (the source uses machine floats; every
  property proved here concerns exact comparisons, sums and branch
  structure, for which ℚ is the intended idealisation; the float literals
  `1.5` and `0.5` are exact, `1.3` is idealised as `13/10`).
* A calendar date is mapped to its absolute (contiguous) day index, so the
  source's `timedelta(days=k)` is addition of `k`.  `datetime.now()` carries
  a time of day, modelled as a rational fraction of a day; dates parsed by
  `pd.to_datetime` from ISO date strings sit at midnight (fraction 0).
* The expenses frame rows carry the four columns the analysis reads
  (`description`, `amount`, `category`, `date`); `id` and `created_at` are
  never consulted by this module.  The `date` cell is either the raw stored
  value or the in-place parsed timestamp, so that the in-place column
  rewrite performed by `pd.to_datetime` assignment is observable, and a
  frame-level flag records whether the `month_year` column has been added.
-/

namespace ExpenseAI

/-- Proleptic Gregorian calendar date, day granularity. -/
structure Date where
  year : Nat
  month : Nat
  day : Nat
deriving DecidableEq, Repr

def isLeap (y : Nat) : Bool :=
  (y % 4 == 0 && y % 100 != 0) || (y % 400 == 0)

/-- Cumulative days in the months strictly before month `m` (1-based). -/
def daysBeforeMonth (leap : Bool) (m : Nat) : Nat :=
  (match m with
   | 1 => 0 | 2 => 31 | 3 => 59 | 4 => 90 | 5 => 120 | 6 => 151
   | 7 => 181 | 8 => 212 | 9 => 243 | 10 => 273 | 11 => 304 | _ => 334)
  + (if leap && decide (2 < m) then 1 else 0)

/-- Absolute day index of a calendar date, contiguous across month and year
boundaries, so day arithmetic (`timedelta`) is ordinary addition. -/
def dayNumber (d : Date) : Nat :=
  let y := d.year - 1
  y * 365 + y / 4 - y / 100 + y / 400 + daysBeforeMonth (isLeap d.year) d.month + d.day

/-- A `datetime.now()` value: calendar date plus time of day (fraction of a day). -/
structure Now where
  date : Date
  frac : ℚ
deriving DecidableEq

/-- The instant of a `datetime` on the time line, measured in days. -/
def Now.instant (n : Now) : ℚ := (dayNumber n.date : ℚ) + n.frac

/-- `current_date.replace(day=1)` (keeps the time of day). -/
def currentMonthStart (n : Now) : ℚ :=
  (dayNumber ⟨n.date.year, n.date.month, 1⟩ : ℚ) + n.frac

def prevYM (y m : Nat) : Nat × Nat := if m = 1 then (y - 1, 12) else (y, m - 1)

/-- `(current_month_start - timedelta(days=1)).replace(day=1)`: first day of
the previous calendar month, keeping the time of day. -/
def previousMonthStart (n : Now) : ℚ :=
  let ym := prevYM n.date.year n.date.month
  (dayNumber ⟨ym.1, ym.2, 1⟩ : ℚ) + n.frac

/-- `current_month_start - timedelta(days=1)`. -/
def previousMonthEnd (n : Now) : ℚ := currentMonthStart n - 1

/-- `current_date.replace(month=1, day=1)`. -/
def thisYearStart (n : Now) : ℚ := (dayNumber ⟨n.date.year, 1, 1⟩ : ℚ) + n.frac

/-- `current_date.replace(year=current_date.year-1, month=1, day=1)` — the
start date the source computes for the phrase "last year". -/
def lastYearStart (n : Now) : ℚ := (dayNumber ⟨n.date.year - 1, 1, 1⟩ : ℚ) + n.frac

/-- `current_date - timedelta(weeks=1)`. -/
def lastWeekStart (n : Now) : ℚ := n.instant - 7

/-- The `date` cell of a row: either the raw stored ISO date string (we carry
the calendar date it denotes; the collection invariant makes it parseable) or
the parsed timestamp produced by `pd.to_datetime`. -/
inductive DateVal where
  | raw (d : Date)
  | ts (d : Date)
deriving DecidableEq, Repr

def DateVal.toDate : DateVal → Date
  | .raw d => d
  | .ts d => d

/-- One row of the expenses frame (the four columns the analysis reads). -/
structure Record where
  description : String
  amount : ℚ
  category : String
  date : DateVal
deriving DecidableEq, Repr

/-- Midnight instant of the row's date (ISO date strings parse to midnight). -/
def Record.instant (r : Record) : ℚ := (dayNumber r.date.toDate : ℚ)

/-- The expenses DataFrame: rows, plus whether a `month_year` column exists. -/
structure DataFrame where
  rows : List Record
  hasMonthYear : Bool
deriving DecidableEq, Repr

/-- Effect on one row of `expenses_df['date'] = pd.to_datetime(expenses_df['date'])`. -/
def parseRec (r : Record) : Record := { r with date := .ts r.date.toDate }

/-- `expenses_df['date'] = pd.to_datetime(expenses_df['date'])`: the in-place
rewrite of the `date` column of the caller's frame. -/
def parseDates (df : DataFrame) : DataFrame := { df with rows := df.rows.map parseRec }

/-- `df['amount'].sum()`. -/
def sumAmounts (rows : List Record) : ℚ := (rows.map Record.amount).sum

/-! ### The static category keyword table -/

def foodKeywords : List String :=
  ["restaurant", "food", "lunch", "dinner", "breakfast", "snack", "coffee", "pizza",
   "burger", "sandwich", "takeout", "delivery", "grocery", "supermarket", "cafe",
   "mcdonalds", "starbucks", "subway", "kfc", "dominos", "uber eats", "doordash"]

def transportationKeywords : List String :=
  ["gas", "fuel", "uber", "taxi", "bus", "train", "metro", "parking",
   "toll", "car", "vehicle", "maintenance", "repair", "lyft", "transport"]

def shoppingKeywords : List String :=
  ["amazon", "store", "shop", "retail", "clothes", "clothing", "shoes",
   "electronics", "gadget", "online", "purchase", "buy", "walmart", "target"]

def entertainmentKeywords : List String :=
  ["movie", "cinema", "theater", "concert", "game", "sport", "gym",
   "netflix", "spotify", "entertainment", "subscription", "hobby"]

def billsKeywords : List String :=
  ["electric", "water", "internet", "phone", "rent", "mortgage", "insurance",
   "utility", "bill", "payment", "subscription", "service"]

def healthcareKeywords : List String :=
  ["doctor", "hospital", "medicine", "pharmacy", "medical", "health",
   "dentist", "clinic", "prescription", "treatment"]

def educationKeywords : List String :=
  ["school", "college", "university", "course", "book", "education",
   "learning", "tuition", "fees", "class"]

def travelKeywords : List String :=
  ["hotel", "flight", "vacation", "trip", "travel", "booking", "airbnb",
   "resort", "cruise", "tour"]

/-- `self.category_keywords`, in its (insertion-ordered) iteration order. -/
def category_keywords : List (String × List String) :=
  [("Food", foodKeywords), ("Transportation", transportationKeywords),
   ("Shopping", shoppingKeywords), ("Entertainment", entertainmentKeywords),
   ("Bills", billsKeywords), ("Healthcare", healthcareKeywords),
   ("Education", educationKeywords), ("Travel", travelKeywords)]

/-! ### Substring search and categorisation -/

/-- Whether `needle` is an initial segment of `hay`. -/
def startsWith : List Char → List Char → Bool
  | [], _ => true
  | _ :: _, [] => false
  | a :: as, b :: bs => a == b && startsWith as bs

/-- Python's `needle in hay` substring test, on character lists. -/
def hasSubstr (needle : List Char) : List Char → Bool
  | [] => startsWith needle []
  | c :: t => startsWith needle (c :: t) || hasSubstr needle t

/-- `s.lower()`, as a character list (ASCII, which covers every keyword). -/
def lowerChars (s : String) : List Char := s.toList.map Char.toLower

def lowerStr (s : String) : String := String.mk (lowerChars s)

/-- The score loop body of `categorize_expense`: each keyword that occurs in
the lowered description contributes its length, once. -/
def keywordScore (dl : List Char) (kws : List String) : Nat :=
  kws.foldl (fun s k => if hasSubstr k.toList dl then s + k.length else s) 0

/-- One fold step of Python's `max(..., key=...)`: keep the incumbent unless
the challenger is strictly better, so the first maximum wins. -/
def pickBest (p : String × Nat) (l : List (String × Nat)) : String × Nat :=
  l.foldl (fun best q => if best.2 < q.2 then q else best) p

/-- Python's `max(category_scores, key=...)`: first key attaining the maximal
value (the empty case is unreachable: the table is nonempty). -/
def maxKeyFirst : List (String × Nat) → String
  | [] => "Other"
  | p :: ps => (pickBest p ps).1

/-- `categorize_expense(description)`. -/
def categorize_expense (description : String) : String :=
  if description = "" then "Other"
  else
    let dl := lowerChars description
    let scores := category_keywords.map (fun p => (p.1, keywordScore dl p.2))
    if scores.any (fun q => decide (0 < q.2)) then maxKeyFirst scores else "Other"

/-! ### Monthly spending analysis -/

structure MonthlyAnalysis where
  current_month : ℚ
  previous_month : ℚ
  percentage_change : ℚ
deriving DecidableEq, Repr

/-- The current-month filter and sum of `analyze_monthly_spending`:
`date >= current_month_start and date <= current_date`. -/
def currentMonthTotal (n : Now) (rows : List Record) : ℚ :=
  sumAmounts (rows.filter (fun r =>
    decide (currentMonthStart n ≤ r.instant) && decide (r.instant ≤ n.instant)))

/-- The previous-month filter and sum of `analyze_monthly_spending`. -/
def previousMonthTotal (n : Now) (rows : List Record) : ℚ :=
  sumAmounts (rows.filter (fun r =>
    decide (previousMonthStart n ≤ r.instant) && decide (r.instant ≤ previousMonthEnd n)))

/-- The percentage-change rule in the words of the specification (§4.2):
`(current - previous) / previous * 100` when previous > 0; when previous is 0,
0 if current is 0, else 100. -/
def pctChangeSpec (current previous : ℚ) : ℚ :=
  if 0 < previous then (current - previous) / previous * 100
  else if current = 0 then 0 else 100

/-- `analyze_monthly_spending(expenses_df)`; the second component is the state
of the caller's frame after the call. -/
def analyze_monthly_spending (n : Now) (df : DataFrame) :
    Option MonthlyAnalysis × DataFrame :=
  if df.rows.isEmpty then (none, df)
  else
    let df2 := parseDates df
    let cur := currentMonthTotal n df2.rows
    let prev := previousMonthTotal n df2.rows
    let pct := if 0 < prev then (cur - prev) / prev * 100
               else if cur = 0 then 0 else 100
    (some ⟨cur, prev, pct⟩, df2)

/-! ### Next-month prediction -/

/-- `r['date'].dt.to_period('M')`: the `(year, month)` key of a row. -/
def monthOf (r : Record) : Nat × Nat := (r.date.toDate.year, r.date.toDate.month)

def monthLe (a b : Nat × Nat) : Bool :=
  decide (a.1 < b.1) || (a.1 == b.1 && decide (a.2 ≤ b.2))

/-- Insertion into a sorted list; ties keep the inserted element first, which
makes `sortLe` a stable sort. -/
def insertLe {α : Type} (le : α → α → Bool) (x : α) : List α → List α
  | [] => [x]
  | y :: ys => if le x y then x :: y :: ys else y :: insertLe le x ys

/-- Stable insertion sort by the boolean relation `le`. -/
def sortLe {α : Type} (le : α → α → Bool) : List α → List α
  | [] => []
  | x :: xs => insertLe le x (sortLe le xs)

/-- Distinct `(year, month)` keys in chronological order — the index of the
`groupby('month_year')` result (pandas sorts group keys). -/
def monthKeys (rows : List Record) : List (Nat × Nat) :=
  sortLe monthLe (rows.map monthOf).dedup

/-- `groupby('month_year')['amount'].sum()` in chronological key order. -/
def monthlyTotals (rows : List Record) : List ℚ :=
  (monthKeys rows).map (fun ym => sumAmounts (rows.filter (fun r => monthOf r == ym)))

/-- Ordinary least squares over the points `(i, ys[i])`, `i = 0 .. n-1`,
evaluated at `x = n` — what the fitted `LinearRegression` predicts for the
month after the last observed one. -/
def olsPredictNext (ys : List ℚ) : ℚ :=
  let n : ℚ := (ys.length : ℚ)
  let xs : List ℚ := (List.range ys.length).map (fun i => (i : ℚ))
  let sx := xs.sum
  let sy := ys.sum
  let sxx := (xs.map (fun x => x * x)).sum
  let sxy := (List.zipWith (fun x y => x * y) xs ys).sum
  let slope := (n * sxy - sx * sy) / (n * sxx - sx * sx)
  let intercept := (sy - slope * sx) / n
  slope * n + intercept

/-- `predict_next_month_spending(expenses_df)`; the second component is the
state of the caller's frame after the call (note the `month_year` column is
added, and dates are parsed in place, whenever the length guard passes). -/
def predict_next_month_spending (df : DataFrame) : Option ℚ × DataFrame :=
  if df.rows.isEmpty || decide (df.rows.length < 3) then (none, df)
  else
    let df2 : DataFrame := { parseDates df with hasMonthYear := true }
    if decide ((monthKeys df2.rows).length < 2) then (none, df2)
    else (some (max 0 (olsPredictNext (monthlyTotals df2.rows))), df2)

/-! ### Category insights -/

inductive Insight where
  | high_spending (category : String) (amount : ℚ) (message : String)
  | increasing_trend (category : String) (current_amount last_amount : ℚ) (message : String)
deriving DecidableEq, Repr

/-- Lexicographic order on character lists by code point. -/
def charsLe : List Char → List Char → Bool
  | [], _ => true
  | _ :: _, [] => false
  | a :: as, b :: bs => decide (a.toNat < b.toNat) || (a == b && charsLe as bs)

def strLe (a b : String) : Bool := charsLe a.toList b.toList

/-- Distinct category keys of `groupby('category')`, in pandas' sorted order. -/
def catKeys (rows : List Record) : List String :=
  sortLe strLe (rows.map Record.category).dedup

/-- `groupby('category')['amount'].sum()[c]`. -/
def catSum (rows : List Record) (c : String) : ℚ :=
  sumAmounts (rows.filter (fun r => r.category == c))

/-- `get_category_insights(expenses_df)`; second component is the state of the
caller's frame after the call. -/
def get_category_insights (n : Now) (df : DataFrame) : List Insight × DataFrame :=
  if df.rows.isEmpty then ([], df)
  else
    let df2 := parseDates df
    let cur := df2.rows.filter (fun r => decide (currentMonthStart n ≤ r.instant))
    let cats := catKeys cur
    let highs :=
      if decide (0 < cats.length) then
        let avg := (cats.map (catSum cur)).sum / (cats.length : ℚ)
        (cats.filter (fun c => decide (avg * (3/2) < catSum cur c))).map
          (fun c => Insight.high_spending c (catSum cur c) ("High spending detected in " ++ c))
      else []
    let trends :=
      if decide (30 < df2.rows.length) then
        let last := df2.rows.filter (fun r =>
          decide (previousMonthStart n ≤ r.instant) && decide (r.instant ≤ previousMonthEnd n))
        let lastCats := catKeys last
        (cats.filter (fun c =>
            lastCats.contains c && decide (catSum last c * (13/10) < catSum cur c))).map
          (fun c => Insight.increasing_trend c (catSum cur c) (catSum last c)
            ("Spending in " ++ c ++ " is increasing"))
      else []
    (highs ++ trends, df2)

/-! ### Natural-language query processing -/

/-- The keys of `time_filters`, in insertion (scan) order. -/
def timePeriods : List String := ["last week", "last month", "this month", "this year", "last year"]

def sumKeywords : List String := ["how much", "total", "spent", "spending"]
def avgKeywords : List String := ["average", "avg"]
def maxKeywords : List String := ["highest", "maximum", "max", "most expensive"]
def minKeywords : List String := ["lowest", "minimum", "min", "cheapest"]

/-- `self.category_keywords.keys()`, in iteration order. -/
def categoryNames : List String := category_keywords.map Prod.fst

/-- Python's `needle in hay` on strings. -/
def containsStr (hay needle : String) : Bool := hasSubstr needle.toList hay.toList

/-- The first time phrase (in table order) present in the lowered query. -/
def foundPeriod (ql : String) : Option String := timePeriods.find? (fun p => containsStr ql p)

/-- The first category whose lowered name occurs in the lowered query. -/
def foundCategory (ql : String) : Option String :=
  categoryNames.find? (fun c => containsStr ql (lowerStr c))

/-- The per-period filter applied by the query interpreter.  The source's
`if/elif` chain has no branch for "last year", so that phrase leaves the
frame unfiltered even though `time_filters` computes a start date for it. -/
def applyTimeFilter (n : Now) (rows : List Record) (period : String) : List Record :=
  if period == "last week" then
    rows.filter (fun r => decide (lastWeekStart n ≤ r.instant))
  else if period == "last month" then
    rows.filter (fun r =>
      decide (previousMonthStart n ≤ r.instant) && decide (r.instant ≤ previousMonthEnd n))
  else if period == "this month" then
    rows.filter (fun r => decide (currentMonthStart n ≤ r.instant))
  else if period == "this year" then
    rows.filter (fun r => decide (thisYearStart n ≤ r.instant))
  else rows

/-- The time- and category-filtered working set (`filtered_df`) of
`process_natural_language_query`, computed from the parsed frame. -/
def queryFiltered (n : Now) (query : String) (df : DataFrame) : List Record :=
  let rows := (parseDates df).rows
  let f1 := match foundPeriod (lowerStr query) with
    | some p => applyTimeFilter n rows p
    | none => rows
  match foundCategory (lowerStr query) with
  | some c => f1.filter (fun r => r.category == c)
  | none => f1

/-- A query outcome: either a plain message string or a result object with
`amount`, `details` and the bounded `data` preview. -/
inductive QueryResult where
  | msg (s : String)
  | result (amount : ℚ) (details : String) (data : List Record)
deriving DecidableEq, Repr

def QueryResult.amountQ : QueryResult → Option ℚ
  | .msg _ => none
  | .result a _ _ => some a

def notUnderstoodMsg : String := "I couldn't understand your query. Please try rephrasing it."

def pad2 (k : Nat) : String := (if k < 10 then "0" else "") ++ toString k

/-- Renders a rational like Python's `f"{x:.2f}"` (idealised to exact
rounding of the rational; exact on the cent-valued amounts used here). -/
def fmtMoney (q : ℚ) : String :=
  let cents : Int := (q * 100 + 1/2).floor
  (if cents < 0 then "-" else "") ++
    toString (cents.natAbs / 100) ++ "." ++ pad2 (cents.natAbs % 100)

/-- `strftime('%Y-%m-%d')`. -/
def fmtDate (d : Date) : String :=
  toString d.year ++ "-" ++ pad2 d.month ++ "-" ++ pad2 d.day

/-- `filtered_df['amount'].idxmax()` row: the first row attaining the maximal
amount. -/
def firstMaxRec : List Record → Option Record
  | [] => none
  | r :: rs => some (rs.foldl (fun b x => if decide (b.amount < x.amount) then x else b) r)

/-- `filtered_df['amount'].idxmin()` row: the first row attaining the minimal
amount. -/
def firstMinRec : List Record → Option Record
  | [] => none
  | r :: rs => some (rs.foldl (fun b x => if decide (x.amount < b.amount) then x else b) r)

/-- `nlargest(5, 'amount')`: top five by amount, descending, first occurrences
kept on ties. -/
def topByAmount (rows : List Record) : List Record :=
  (sortLe (fun a b => decide (b.amount ≤ a.amount)) rows).take 5

/-- `nsmallest(5, 'amount')`. -/
def bottomByAmount (rows : List Record) : List Record :=
  (sortLe (fun a b => decide (a.amount ≤ b.amount)) rows).take 5

/-- The body of `process_natural_language_query` past the empty-frame guard:
time filter, category filter, then the intent `if/elif` chain.  A matched
Max/Min branch with an empty working set produces no result and control
reaches the final not-understood return. -/
def queryAnswer (n : Now) (query : String) (df : DataFrame) : QueryResult :=
  let ql := lowerStr query
  let filtered := queryFiltered n query df
  let periodText := match foundPeriod ql with | some p => " " ++ p | none => ""
  let categoryText := match foundCategory ql with | some c => " on " ++ c | none => ""
  if sumKeywords.any (fun w => containsStr ql w) then
    let total := sumAmounts filtered
    .result total ("Total spending" ++ categoryText ++ periodText ++ ": $" ++ fmtMoney total)
      (filtered.take 10)
  else if avgKeywords.any (fun w => containsStr ql w) then
    -- pandas' mean of an empty series is NaN; over ℚ the 0/0 here is 0.
    let avg := sumAmounts filtered / (filtered.length : ℚ)
    .result avg ("Average spending" ++ categoryText ++ periodText ++ ": $" ++ fmtMoney avg)
      (filtered.take 10)
  else if maxKeywords.any (fun w => containsStr ql w) then
    match firstMaxRec filtered with
    | some r =>
      .result r.amount ("Highest expense: " ++ r.description ++ " - $" ++ fmtMoney r.amount
        ++ " on " ++ fmtDate r.date.toDate) (topByAmount filtered)
    | none => .msg notUnderstoodMsg
  else if minKeywords.any (fun w => containsStr ql w) then
    match firstMinRec filtered with
    | some r =>
      .result r.amount ("Lowest expense: " ++ r.description ++ " - $" ++ fmtMoney r.amount
        ++ " on " ++ fmtDate r.date.toDate) (bottomByAmount filtered)
    | none => .msg notUnderstoodMsg
  else
    if filtered.isEmpty then .msg notUnderstoodMsg
    else
      .result (sumAmounts filtered)
        ("Found " ++ toString filtered.length ++ " expenses totaling $"
          ++ fmtMoney (sumAmounts filtered))
        (filtered.take 10)

/-- `process_natural_language_query(query, expenses_df)`; second component is
the state of the caller's frame after the call. -/
def process_natural_language_query (n : Now) (query : String) (df : DataFrame) :
    QueryResult × DataFrame :=
  if df.rows.isEmpty then (.msg "No expense data available to query.", df)
  else (queryAnswer n query df, parseDates df)

/-! ### Concrete inputs used by witnesses and counterexamples -/

/-- A fixed evaluation instant: 2026-10-12, midnight. -/
def now0 : Now := ⟨⟨2026, 10, 12⟩, 0⟩

def mkRec (desc : String) (amt : ℚ) (cat : String) (y m d : Nat) : Record :=
  ⟨desc, amt, cat, .raw ⟨y, m, d⟩⟩

def dfC1 : DataFrame := ⟨[mkRec "coffee" 4 "Food" 2026 10 5], false⟩

def dfC2 : DataFrame := ⟨[mkRec "desk" 50 "Shopping" 2024 6 15], false⟩

def dfC3 : DataFrame :=
  ⟨[mkRec "groceries" 7 "Food" 2026 10 5, mkRec "flight" 5 "Travel" 2026 10 20], false⟩

def dfC3w : DataFrame := ⟨[mkRec "groceries" 7 "Food" 2026 10 5], false⟩

def dfC4 : DataFrame :=
  ⟨[mkRec "a" 100 "Food" 2026 8 10, mkRec "b" 150 "Food" 2026 9 10,
    mkRec "c" 50 "Bills" 2026 9 20], false⟩

def dfC5 : DataFrame :=
  ⟨[mkRec "a" 30 "Food" 2026 10 3, mkRec "b" 20 "Food" 2026 9 15], false⟩

def dfC7 : DataFrame :=
  ⟨[mkRec "a" 100 "Food" 2026 10 3, mkRec "b" 1 "Bills" 2026 10 4], false⟩

def dfC8 : DataFrame := ⟨[mkRec "rent" 800 "Bills" 2026 3 1], false⟩

def dfC10 : DataFrame := ⟨[mkRec "power" 120 "Bills" 2026 3 1], false⟩

/-! ### General lemmas about the embedding -/

theorem parseRec_instant (r : Record) : (parseRec r).instant = r.instant := rfl

theorem parseRec_monthOf (r : Record) : monthOf (parseRec r) = monthOf r := rfl

theorem sumAmounts_map_parse (l : List Record) :
    sumAmounts (l.map parseRec) = sumAmounts l := by
  unfold sumAmounts
  rw [List.map_map]
  rfl

theorem filter_map_parse (p : Record → Bool) (h : ∀ r, p (parseRec r) = p r)
    (l : List Record) :
    (l.map parseRec).filter p = (l.filter p).map parseRec := by
  rw [List.filter_map]
  congr 1
  exact List.filter_congr (fun r _ => h r)

theorem sum_filter_parse (p : Record → Bool) (h : ∀ r, p (parseRec r) = p r)
    (l : List Record) :
    sumAmounts ((l.map parseRec).filter p) = sumAmounts (l.filter p) := by
  rw [filter_map_parse p h, sumAmounts_map_parse]

theorem currentMonthTotal_parse (n : Now) (l : List Record) :
    currentMonthTotal n (l.map parseRec) = currentMonthTotal n l :=
  sum_filter_parse
    (fun r => decide (currentMonthStart n ≤ r.instant) && decide (r.instant ≤ n.instant))
    (fun _ => rfl) l

theorem previousMonthTotal_parse (n : Now) (l : List Record) :
    previousMonthTotal n (l.map parseRec) = previousMonthTotal n l :=
  sum_filter_parse
    (fun r => decide (previousMonthStart n ≤ r.instant) && decide (r.instant ≤ previousMonthEnd n))
    (fun _ => rfl) l

theorem monthKeys_parse (l : List Record) :
    monthKeys (l.map parseRec) = monthKeys l := by
  unfold monthKeys
  rw [List.map_map]
  rfl

/-! ### C9 — empty collection short-circuits to the fixed message -/

/-- C9: for every query text (and every evaluation instant and `month_year`
flag), `process_natural_language_query` on an empty collection returns the
literal string "No expense data available to query.". -/
theorem c9_empty_collection_message (n : Now) (query : String) (b : Bool) :
    (process_natural_language_query n query ⟨[], b⟩).1 =
      .msg "No expense data available to query." := rfl

/-! ### C1 — the analytical operations do mutate the caller's frame -/

/-- C1 counterexample: the claim that no analytical operation changes the
caller's collection is false — `analyze_monthly_spending` rewrites the `date`
column in place (string values become parsed timestamps), so the frame after
the call differs from the frame before it. -/
theorem c1_counterexample :
    (analyze_monthly_spending now0 dfC1).2 ≠ dfC1 := by
  with_unfolding_all decide

/-- C1 (amended): each analytical operation leaves the row count, row order,
descriptions, amounts and categories of the caller's collection unchanged;
the only mutations are that every operation (past its trivial-input guard)
rewrites the `date` column in place with parsed datetimes, and
`predict_next_month_spending` additionally adds a `month_year` column. -/
theorem c1_ops_mutate_only_date_parsing (n : Now) (q : String) (df : DataFrame) :
    ((analyze_monthly_spending n df).2 = if df.rows.isEmpty then df else parseDates df)
    ∧ ((predict_next_month_spending df).2 =
        if df.rows.isEmpty || decide (df.rows.length < 3) then df
        else { parseDates df with hasMonthYear := true })
    ∧ ((get_category_insights n df).2 = if df.rows.isEmpty then df else parseDates df)
    ∧ ((process_natural_language_query n q df).2 =
        if df.rows.isEmpty then df else parseDates df)
    ∧ ((parseDates df).rows.map (fun r => (r.description, r.amount, r.category)) =
        df.rows.map (fun r => (r.description, r.amount, r.category)))
    ∧ (parseDates df).rows.length = df.rows.length := by
  refine ⟨?_, ?_, ?_, ?_, ?_, ?_⟩
  · unfold analyze_monthly_spending; split <;> rfl
  · unfold predict_next_month_spending
    split
    · rfl
    · dsimp only
      split <;> rfl
  · unfold get_category_insights; split <;> rfl
  · unfold process_natural_language_query; split <;> rfl
  · unfold parseDates
    simp only [List.map_map]
    exact List.map_congr_left (fun r _ => rfl)
  · exact List.length_map _ _

/-! ### C2 — the "last year" phrase applies no filter -/

/-- C2 evaluated at the failing input: on 2026-10-12, the query
"total last year" over a single record dated 2024-06-15 (before
2025-01-01) sums that record anyway — the interpreter recognises the
phrase but its `if/elif` chain has no branch applying the computed
`last year` start date — whereas the filter the claim describes
(date ≥ January 1 of the prior year) would yield 0. -/
theorem c2_last_year_is_not_filtered :
    (process_natural_language_query now0 "total last year" dfC2).1.amountQ = some 50
    ∧ sumAmounts (dfC2.rows.filter
        (fun r => decide (lastYearStart now0 ≤ r.instant))) = 0 := by
  constructor <;> with_unfolding_all decide

/-! ### C3 — "this month" Sum answers versus the monthly analysis -/

/-- C3 counterexample: the Sum-intent answer to "How much did I spend this
month" does not always equal `analyze_monthly_spending`'s current-month
total: the query filter is only `date >= current_month_start` while the
analysis also requires `date <= current_date`, so a record dated in the
future (here 2026-10-20 seen from 2026-10-12) is counted by the query (12)
but not by the analysis (7). -/
theorem c3_counterexample :
    (process_natural_language_query now0 "How much did I spend this month" dfC3).1.amountQ ≠
      ((analyze_monthly_spending now0 dfC3).1.map MonthlyAnalysis.current_month) := by
  with_unfolding_all decide

/-- C3 (amended): for every non-empty collection none of whose records is
dated after the current instant, the Sum-intent answer to "How much did I
spend this month" equals the current-month total of
`analyze_monthly_spending` on the same collection. -/
theorem c3_this_month_sum_matches_analyze (n : Now) (df : DataFrame)
    (hne : df.rows.isEmpty = false)
    (hpast : ∀ r ∈ df.rows, r.instant ≤ n.instant) :
    (process_natural_language_query n "How much did I spend this month" df).1.amountQ =
      ((analyze_monthly_spending n df).1.map MonthlyAnalysis.current_month) := by
  have hp : foundPeriod (lowerStr "How much did I spend this month") = some "this month" := by
    decide
  have hc : foundCategory (lowerStr "How much did I spend this month") = none := by decide
  have hs : sumKeywords.any
      (fun w => containsStr (lowerStr "How much did I spend this month") w) = true := by decide
  have happ : ∀ rows : List Record, applyTimeFilter n rows "this month" =
      rows.filter (fun r => decide (currentMonthStart n ≤ r.instant)) := by
    intro rows
    unfold applyTimeFilter
    rw [if_neg (by decide), if_neg (by decide), if_pos (by decide)]
  have hfil : queryFiltered n "How much did I spend this month" df =
      (df.rows.map parseRec).filter (fun r => decide (currentMonthStart n ≤ r.instant)) := by
    unfold queryFiltered
    rw [hp, hc]
    exact happ _
  have hsum :
      sumAmounts ((df.rows.map parseRec).filter
        (fun r => decide (currentMonthStart n ≤ r.instant))) =
      currentMonthTotal n (df.rows.map parseRec) := by
    unfold currentMonthTotal sumAmounts
    congr 2
    apply List.filter_congr
    intro r hr
    rcases List.mem_map.mp hr with ⟨r0, hr0, rfl⟩
    have hr1 : (parseRec r0).instant ≤ n.instant := by
      rw [parseRec_instant]; exact hpast r0 hr0
    simp [hr1]
  unfold process_natural_language_query analyze_monthly_spending
  rw [hne]
  simp only [Bool.false_eq_true, if_false]
  unfold queryAnswer
  dsimp only
  rw [hs]
  simp only [if_true, QueryResult.amountQ, Option.map_some']
  rw [hfil, hsum]
  rfl

/-- C3 amended-claim witness at a concrete past-dated collection. -/
theorem c3_amended_witness :
    (process_natural_language_query now0 "How much did I spend this month" dfC3w).1.amountQ =
      ((analyze_monthly_spending now0 dfC3w).1.map MonthlyAnalysis.current_month) :=
  c3_this_month_sum_matches_analyze now0 dfC3w (by decide) (by with_unfolding_all decide)

/-! ### C4 — prediction is `none` exactly on insufficient data, else ≥ 0 -/

/-- C4: `predict_next_month_spending` returns `none` exactly when the
collection has fewer than 3 records or fewer than 2 distinct calendar
months, and any returned prediction is nonnegative (it is clamped at 0). -/
theorem c4_prediction_none_iff_insufficient (df : DataFrame) :
    ((predict_next_month_spending df).1 = none ↔
      df.rows.length < 3 ∨ (monthKeys df.rows).length < 2)
    ∧ ∀ v : ℚ, (predict_next_month_spending df).1 = some v → 0 ≤ v := by
  have hkeys : monthKeys (parseDates df).rows = monthKeys df.rows :=
    monthKeys_parse df.rows
  unfold predict_next_month_spending
  by_cases h1 : (df.rows.isEmpty || decide (df.rows.length < 3)) = true
  · rw [if_pos h1]
    have h3 : df.rows.length < 3 := by
      rcases Bool.or_eq_true_iff.mp h1 with h | h
      · have := List.isEmpty_iff.mp h
        simp [this]
      · exact of_decide_eq_true h
    constructor
    · simp [h3]
    · intro v hv
      exact absurd hv (by simp)
  · rw [if_neg h1]
    have h3 : ¬ df.rows.length < 3 := by
      intro hlt
      exact h1 (by simp [hlt])
    dsimp only
    by_cases h2 : decide ((monthKeys (parseDates df).rows).length < 2) = true
    · rw [if_pos h2]
      have h2' : (monthKeys df.rows).length < 2 := by
        rw [← hkeys]; exact of_decide_eq_true h2
      constructor
      · simp [h2']
      · intro v hv
        exact absurd hv (by simp)
    · rw [if_neg h2]
      have h2' : ¬ (monthKeys df.rows).length < 2 := by
        rw [← hkeys]
        intro hlt
        exact h2 (decide_eq_true hlt)
      constructor
      · constructor
        · intro hv; exact absurd hv (by simp)
        · intro hor; exact absurd hor (by simp [h3, h2'])
      · intro v hv
        have hv' := Option.some.inj hv
        rw [← hv']
        exact le_max_left 0 _

/-- C4 witness: a 3-record, 2-month collection with monthly totals 100 and
200 predicts 300 (linear extrapolation), and the prediction is ≥ 0. -/
theorem c4_witness :
    (predict_next_month_spending dfC4).1 = some 300 ∧ (0 : ℚ) ≤ 300 :=
  ⟨by with_unfolding_all decide,
   (c4_prediction_none_iff_insufficient dfC4).2 300 (by with_unfolding_all decide)⟩

/-! ### C5 — the percentage-change formula -/

/-- C5: on every non-empty collection the analysis returns a result whose
current- and previous-month fields are the corresponding window sums and
whose percentage change follows the specification's rule:
`(current - previous)/previous*100` when previous > 0, else 0 when current
is also 0 and exactly 100 otherwise. -/
theorem c5_percentage_change_formula (n : Now) (df : DataFrame)
    (hne : df.rows.isEmpty = false) :
    ∃ r, (analyze_monthly_spending n df).1 = some r
      ∧ r.current_month = currentMonthTotal n df.rows
      ∧ r.previous_month = previousMonthTotal n df.rows
      ∧ r.percentage_change = pctChangeSpec r.current_month r.previous_month := by
  unfold analyze_monthly_spending
  rw [hne]
  simp only [Bool.false_eq_true, if_false]
  refine ⟨_, rfl, ?_, ?_, ?_⟩
  · exact currentMonthTotal_parse n df.rows
  · exact previousMonthTotal_parse n df.rows
  · rfl

/-- C5 witness: September total 20, October-so-far total 30, change 50%. -/
theorem c5_witness :
    ∃ r, (analyze_monthly_spending now0 dfC5).1 = some r
      ∧ r.current_month = currentMonthTotal now0 dfC5.rows
      ∧ r.previous_month = previousMonthTotal now0 dfC5.rows
      ∧ r.percentage_change = pctChangeSpec r.current_month r.previous_month :=
  c5_percentage_change_formula now0 dfC5 (by decide)

/-! ### C7 — no increasing-trend insight below 31 records -/

/-- C7: on any collection with fewer than 31 records,
`get_category_insights` only ever emits high-spending insights — the
increasing-trend block is gated on more than 30 records. -/
theorem c7_no_trend_under_31 (n : Now) (df : DataFrame) (h : df.rows.length < 31) :
    ∀ i ∈ (get_category_insights n df).1, ∃ c a m, i = Insight.high_spending c a m := by
  intro i hi
  unfold get_category_insights at hi
  by_cases he : df.rows.isEmpty = true
  · rw [if_pos he] at hi
    exact absurd hi (by simp)
  · rw [if_neg he] at hi
    dsimp only at hi
    have hl : (parseDates df).rows.length = df.rows.length := List.length_map _ _
    rw [List.mem_append] at hi
    rcases hi with h1 | h2
    · split at h1
      · rcases List.mem_map.mp h1 with ⟨c, _, rfl⟩
        exact ⟨c, _, _, rfl⟩
      · exact absurd h1 (by simp)
    · split at h2
      · next hc => exact absurd (of_decide_eq_true hc) (by omega)
      · exact absurd h2 (by simp)

/-- C7 witness: a two-record collection whose Food spending dominates the
current month yields exactly a high-spending insight and nothing else. -/
theorem c7_witness :
    ∃ c a m, Insight.high_spending c a m ∈ (get_category_insights now0 dfC7).1 := by
  have hmem : Insight.high_spending "Food" 100 "High spending detected in Food" ∈
      (get_category_insights now0 dfC7).1 := by
    with_unfolding_all decide
  obtain ⟨c, a, m, he⟩ := c7_no_trend_under_31 now0 dfC7 (by decide) _ hmem
  exact ⟨c, a, m, he ▸ hmem⟩

/-! ### C8 — Max/Min intent over an empty filtered set falls through -/

/-- C8: for a non-empty collection and a query with a Max or Min intent
keyword and no higher-priority (Sum/Average) keyword, an empty time- and
category-filtered set makes the interpreter fall through to the literal
not-understood message instead of returning a zero-valued result. -/
theorem c8_maxmin_empty_not_understood (n : Now) (query : String) (df : DataFrame)
    (hne : df.rows.isEmpty = false)
    (hsum : sumKeywords.any (fun w => containsStr (lowerStr query) w) = false)
    (havg : avgKeywords.any (fun w => containsStr (lowerStr query) w) = false)
    (hmaxmin : maxKeywords.any (fun w => containsStr (lowerStr query) w) = true
      ∨ minKeywords.any (fun w => containsStr (lowerStr query) w) = true)
    (hemp : queryFiltered n query df = []) :
    (process_natural_language_query n query df).1 = .msg notUnderstoodMsg := by
  unfold process_natural_language_query
  rw [hne]
  simp only [Bool.false_eq_true, if_false]
  unfold queryAnswer
  dsimp only
  rw [hsum, havg, hemp]
  simp only [Bool.false_eq_true, if_false]
  by_cases hmax : maxKeywords.any (fun w => containsStr (lowerStr query) w) = true
  · rw [hmax]
    simp [firstMaxRec]
  · rcases hmaxmin with h | h
    · exact absurd h hmax
    · rw [Bool.not_eq_true] at hmax
      rw [hmax, h]
      simp [firstMinRec]

/-- C8 witness: "highest food expense" over a Bills-only collection filters
to the empty set and yields the not-understood message. -/
theorem c8_witness :
    (process_natural_language_query now0 "highest food expense" dfC8).1 =
      .msg notUnderstoodMsg :=
  c8_maxmin_empty_not_understood now0 "highest food expense" dfC8 (by decide) (by decide)
    (by decide) (Or.inl (by decide)) (by with_unfolding_all decide)

/-! ### C10 — Average intent over an empty filtered set still returns a result -/

/-- C10: for a non-empty collection and a query with an Average intent
keyword and no Sum keyword, the interpreter returns a result object even
when the time- and category-filtered set is empty (its amount is the mean
of the empty set), unlike the Max/Min branches which fall through. -/
theorem c10_average_of_empty_still_result (n : Now) (query : String) (df : DataFrame)
    (hne : df.rows.isEmpty = false)
    (hsum : sumKeywords.any (fun w => containsStr (lowerStr query) w) = false)
    (havg : avgKeywords.any (fun w => containsStr (lowerStr query) w) = true)
    (hemp : queryFiltered n query df = []) :
    ∃ a d, (process_natural_language_query n query df).1 = .result a d [] := by
  unfold process_natural_language_query
  rw [hne]
  simp only [Bool.false_eq_true, if_false]
  unfold queryAnswer
  dsimp only
  rw [hsum, havg, hemp]
  simp only [Bool.false_eq_true, if_false, if_true, List.take_nil]
  exact ⟨_, _, rfl⟩

/-- C10 witness: "average on food" over a Bills-only collection filters to
the empty set yet still produces a result object. -/
theorem c10_witness :
    ∃ a d, (process_natural_language_query now0 "average on food" dfC10).1 =
      .result a d [] :=
  c10_average_of_empty_still_result now0 "average on food" dfC10 (by decide) (by decide)
    (by decide) (by with_unfolding_all decide)

/-! ### Lemmas about the categoriser's score fold and first-max selection -/

theorem score_foldl_acc (dl : List Char) (kws : List String) (a : Nat) :
    kws.foldl (fun s k => if hasSubstr k.toList dl then s + k.length else s) a =
      a + ((kws.filter (fun k => hasSubstr k.toList dl)).map String.length).sum := by
  induction kws generalizing a with
  | nil => simp
  | cons k t ih =>
    by_cases hk : hasSubstr k.toList dl = true
    · simp only [List.foldl_cons, hk, if_true, List.filter_cons, List.map_cons, List.sum_cons, ih]
      omega
    · simp only [List.foldl_cons, List.filter_cons, hk, if_false, ih, Bool.false_eq_true]

theorem keywordScore_eq_sum (dl : List Char) (kws : List String) :
    keywordScore dl kws =
      ((kws.filter (fun k => hasSubstr k.toList dl)).map String.length).sum := by
  unfold keywordScore
  simpa using score_foldl_acc dl kws 0

theorem pickBest_skip (b : String × Nat) (l : List (String × Nat))
    (h : ∀ q ∈ l, ¬ b.2 < q.2) : pickBest b l = b := by
  induction l with
  | nil => rfl
  | cons q t ih =>
    have hq : ¬ b.2 < q.2 := h q (List.mem_cons_self q t)
    simp only [pickBest, List.foldl_cons]
    rw [if_neg hq]
    exact ih (fun x hx => h x (List.mem_cons_of_mem q hx))

theorem pickBest_mem (b : String × Nat) (l : List (String × Nat)) :
    pickBest b l = b ∨ pickBest b l ∈ l := by
  induction l generalizing b with
  | nil => exact Or.inl rfl
  | cons q t ih =>
    simp only [pickBest, List.foldl_cons]
    by_cases h : b.2 < q.2
    · rw [if_pos h]
      show pickBest q t = b ∨ pickBest q t ∈ q :: t
      rcases ih q with he | hm
      · exact Or.inr (by rw [he]; exact List.mem_cons_self q t)
      · exact Or.inr (List.mem_cons_of_mem q hm)
    · rw [if_neg h]
      show pickBest b t = b ∨ pickBest b t ∈ q :: t
      rcases ih b with he | hm
      · exact Or.inl he
      · exact Or.inr (List.mem_cons_of_mem q hm)

theorem pickBest_ge (b : String × Nat) (l : List (String × Nat)) :
    ∀ q, (q = b ∨ q ∈ l) → q.2 ≤ (pickBest b l).2 := by
  induction l generalizing b with
  | nil =>
    rintro q (rfl | hq)
    · exact le_refl _
    · cases hq
  | cons x t ih =>
    have hstep : pickBest b (x :: t) = pickBest (if b.2 < x.2 then x else b) t := rfl
    have hcb : b.2 ≤ (if b.2 < x.2 then x else b).2 := by split <;> omega
    have hcx : x.2 ≤ (if b.2 < x.2 then x else b).2 := by split <;> omega
    rintro q (rfl | hq)
    · rw [hstep]
      exact le_trans hcb (ih _ _ (Or.inl rfl))
    · rw [hstep]
      rcases List.mem_cons.mp hq with rfl | hq2
      · exact le_trans hcx (ih _ _ (Or.inl rfl))
      · exact ih _ q (Or.inr hq2)

/-- If every entry scoring at least `v` carries the name `name`, and some
entry scores at least `v`, then the first-maximum key is `name`. -/
theorem maxKeyFirst_dominant (s : List (String × Nat)) (name : String) (v : Nat)
    (hP : ∀ q ∈ s, v ≤ q.2 → q.1 = name)
    (hw : ∃ q ∈ s, v ≤ q.2) :
    maxKeyFirst s = name := by
  cases s with
  | nil =>
    rcases hw with ⟨q, hq, _⟩
    cases hq
  | cons b t =>
    show (pickBest b t).1 = name
    rcases hw with ⟨w, hwmem, hwv⟩
    have hge : w.2 ≤ (pickBest b t).2 := by
      rcases List.mem_cons.mp hwmem with heq | hm
      · rw [heq]
        exact pickBest_ge b t b (Or.inl rfl)
      · exact pickBest_ge b t w (Or.inr hm)
    have hv : v ≤ (pickBest b t).2 := le_trans hwv hge
    rcases pickBest_mem b t with he | hm
    · rw [he] at hv ⊢
      exact hP b (List.mem_cons_self b t) hv
    · exact hP _ (List.mem_cons_of_mem b hm) hv

/-! ### Substring and whitespace lemmas -/

theorem startsWith_subset (needle : List Char) :
    ∀ hay : List Char, startsWith needle hay = true → ∀ c ∈ needle, c ∈ hay := by
  induction needle with
  | nil =>
    intro hay _ c hc
    cases hc
  | cons a as ih =>
    intro hay hn c hc
    cases hay with
    | nil => simp [startsWith] at hn
    | cons b t =>
      simp only [startsWith, Bool.and_eq_true, beq_iff_eq] at hn
      rcases List.mem_cons.mp hc with rfl | hc'
      · rw [hn.1]
        exact List.mem_cons_self b t
      · exact List.mem_cons_of_mem b (ih t hn.2 c hc')

theorem hasSubstr_subset (needle : List Char) :
    ∀ hay : List Char, hasSubstr needle hay = true → ∀ c ∈ needle, c ∈ hay := by
  intro hay
  induction hay with
  | nil =>
    intro hn c hc
    cases needle with
    | nil => cases hc
    | cons a as => simp [hasSubstr, startsWith] at hn
  | cons b t ih =>
    intro hn c hc
    rw [hasSubstr, Bool.or_eq_true] at hn
    rcases hn with h | h
    · exact startsWith_subset needle (b :: t) h c hc
    · exact List.mem_cons_of_mem b (ih h c hc)

theorem toLower_whitespace (c : Char) (h : c.isWhitespace = true) :
    (Char.toLower c).isWhitespace = true := by
  have h' : ((c = ' ' ∨ c = '\t') ∨ c = '\x0d') ∨ c = '\n' := by
    simpa [Char.isWhitespace] using h
  rcases h' with ((rfl | rfl) | rfl) | rfl <;> decide

/-- Every keyword in the static table contains a non-whitespace character. -/
theorem table_keywords_nonblank :
    ∀ p ∈ category_keywords, ∀ k ∈ p.2,
      k.toList.any (fun c => !c.isWhitespace) = true := by decide

theorem keywordScore_blank (dl : List Char) (hws : ∀ c ∈ dl, c.isWhitespace = true)
    (kws : List String)
    (hk : ∀ k ∈ kws, k.toList.any (fun c => !c.isWhitespace) = true) :
    keywordScore dl kws = 0 := by
  rw [keywordScore_eq_sum]
  have hfil : kws.filter (fun k => hasSubstr k.toList dl) = [] := by
    rw [List.filter_eq_nil_iff]
    intro k hkmem hcontra
    rcases List.any_eq_true.mp (hk k hkmem) with ⟨c, hc, hcw⟩
    have hcd : c ∈ dl := hasSubstr_subset k.toList dl hcontra c hc
    have := hws c hcd
    simp [this] at hcw
  rw [hfil]
  rfl

/-! ### Categoriser behaviour lemmas -/

theorem categorize_strict_max (description : String) (p : String × List String)
    (hp : p ∈ category_keywords)
    (hlt : ∀ q ∈ category_keywords, q.1 ≠ p.1 →
      keywordScore (lowerChars description) q.2 < keywordScore (lowerChars description) p.2)
    (h0 : 0 < keywordScore (lowerChars description) p.2) :
    categorize_expense description = p.1 := by
  by_cases hd : description = ""
  · exfalso
    subst hd
    have hz : keywordScore (lowerChars "") p.2 = 0 :=
      keywordScore_blank (lowerChars "") (by decide) p.2 (table_keywords_nonblank p hp)
    omega
  · unfold categorize_expense
    rw [if_neg hd]
    dsimp only
    have hany : (category_keywords.map
        (fun q => (q.1, keywordScore (lowerChars description) q.2))).any
          (fun q => decide (0 < q.2)) = true :=
      List.any_eq_true.mpr
        ⟨(p.1, keywordScore (lowerChars description) p.2),
         List.mem_map.mpr ⟨p, hp, rfl⟩, decide_eq_true h0⟩
    rw [if_pos hany]
    apply maxKeyFirst_dominant _ p.1 (keywordScore (lowerChars description) p.2)
    · intro q hq hvq
      rcases List.mem_map.mp hq with ⟨q0, hq0, rfl⟩
      by_contra hne
      exact absurd hvq (by simpa using hlt q0 hq0 hne)
    · exact ⟨(p.1, keywordScore (lowerChars description) p.2),
        List.mem_map.mpr ⟨p, hp, rfl⟩, le_refl _⟩

theorem categorize_all_zero (description : String)
    (h : ∀ p ∈ category_keywords, keywordScore (lowerChars description) p.2 = 0) :
    categorize_expense description = "Other" := by
  by_cases hd : description = ""
  · subst hd
    rfl
  · unfold categorize_expense
    rw [if_neg hd]
    dsimp only
    have hany : ¬ ((category_keywords.map
        (fun q => (q.1, keywordScore (lowerChars description) q.2))).any
          (fun q => decide (0 < q.2)) = true) := by
      intro hcontra
      rcases List.any_eq_true.mp hcontra with ⟨q, hq, hq2⟩
      rcases List.mem_map.mp hq with ⟨q0, hq0, rfl⟩
      have hz := h q0 hq0
      simp [hz] at hq2
    rw [if_neg hany]

theorem categorize_blank (description : String)
    (hws : ∀ c ∈ description.toList, c.isWhitespace = true) :
    categorize_expense description = "Other" := by
  apply categorize_all_zero
  intro p hp
  apply keywordScore_blank
  · intro c hc
    unfold lowerChars at hc
    rcases List.mem_map.mp hc with ⟨c0, hc0, rfl⟩
    exact toLower_whitespace c0 (hws c0 hc0)
  · exact table_keywords_nonblank p hp

/-! ### C6 — the keyword categoriser -/

/-- C6: the categoriser scores each category as the summed character-lengths
of its keywords occurring in the lowered description (each keyword at most
once); a category with the strictly highest positive score is returned; and
an empty or blank description, or one on which all categories score 0,
yields "Other". -/
theorem c6_categorizer_spec (description : String) :
    (categorize_expense "" = "Other")
    ∧ (∀ p ∈ category_keywords,
        (∀ q ∈ category_keywords, q.1 ≠ p.1 →
          keywordScore (lowerChars description) q.2 <
            keywordScore (lowerChars description) p.2) →
        0 < keywordScore (lowerChars description) p.2 →
        categorize_expense description = p.1)
    ∧ ((∀ p ∈ category_keywords, keywordScore (lowerChars description) p.2 = 0) →
        categorize_expense description = "Other")
    ∧ ((∀ c ∈ description.toList, c.isWhitespace = true) →
        categorize_expense description = "Other")
    ∧ (∀ p ∈ category_keywords,
        keywordScore (lowerChars description) p.2 =
          ((p.2.filter (fun k => hasSubstr k.toList (lowerChars description))).map
            String.length).sum) :=
  ⟨rfl,
   fun p hp hlt h0 => categorize_strict_max description p hp hlt h0,
   categorize_all_zero description,
   categorize_blank description,
   fun p _ => keywordScore_eq_sum (lowerChars description) p.2⟩

/-- C6 witness: "pizza" scores 5 for Food and 0 elsewhere, and is categorised
as Food. -/
theorem c6_witness : categorize_expense "pizza" = "Food" :=
  (c6_categorizer_spec "pizza").2.1 ("Food", foodKeywords) (by decide)
    (by decide) (by decide)

end ExpenseAI
